import Mathlib

/-!
Shallow embedding of the GitHub telegraf input plugin
(`plugins/inputs/github/github.go`).

The plugin polls the GitHub REST API for a configured list of
repositories, aggregates repository statistics into six numeric fields
and pushes one counter metric per repository into the host accumulator.

Modelling choices:
* Machine `int` values are modelled as `Int` (download counts, view
  counts, star/fork/subscriber counts).
* `time.Time` timestamps are modelled as `Nat`; the Go zero value
  `time.Time{}` (used to initialise the traffic-view scan) is `0`.
* The GitHub API client is an oracle: a record of three functions, one
  per endpoint the plugin calls, each returning `Except` to model the
  `(value, response, err)` results of go-github.
* Every call the plugin makes to the client is recorded in a request
  trace, so that claims of the form "no request is issued" are
  expressible.
* The telegraf accumulator is modelled by returning the list of metrics
  added via `AddCounter` and the list of non-nil errors added via
  `AddError`.
-/

namespace GitHubPlugin

/-- Repository metadata returned by `client.Repositories.Get`
(the three counters the plugin reads). -/
structure RepoInfo where
  forksCount : Int
  stargazersCount : Int
  subscribersCount : Int
  deriving DecidableEq, Repr

/-- A release asset; the plugin reads its download counter
(`GetDownloadCount`). -/
structure ReleaseAsset where
  downloadCount : Int
  deriving DecidableEq, Repr

/-- A release returned by `client.Repositories.ListReleases`:
a list of assets. -/
structure Release where
  assets : List ReleaseAsset
  deriving DecidableEq, Repr

/-- One traffic-view sample from
`client.Repositories.ListTrafficViews` (per-day breakdown). -/
structure TrafficView where
  timestamp : Nat
  count : Int
  uniques : Int
  deriving DecidableEq, Repr

/-- The traffic-views response; the plugin only reads the `Views` list. -/
structure TrafficViews where
  views : List TrafficView
  deriving DecidableEq, Repr

/-- Errors surfaced by the plugin: its own two error constructions plus
opaque errors propagated from the API client. -/
inductive GHError where
  /-- `errors.New("github: Empty repo list")` in `Gather`. -/
  | emptyRepoList : GHError
  /-- `fmt.Errorf("github: Invalid repo identifier '%s'", repo)`. -/
  | invalidRepoId (repo : String) : GHError
  /-- An error returned by a client call (transport/HTTP/auth). -/
  | clientError (msg : String) : GHError
  deriving DecidableEq, Repr

/-- The GitHub API client as an oracle: one function per endpoint the
plugin calls, each may fail like the go-github calls do. -/
structure Client where
  getRepo : String → String → Except GHError RepoInfo
  listReleases : String → String → Except GHError (List Release)
  listTrafficViews : String → String → Except GHError TrafficViews

/-- One HTTP request issued through the client, for request-trace
reasoning. -/
inductive Request where
  | getRepo (owner name : String) : Request
  | listReleases (owner name : String) : Request
  | listTrafficViews (owner name : String) : Request
  deriving DecidableEq, Repr

/-- Metric kinds of the telegraf accumulator; the plugin only ever calls
`AddCounter`. -/
inductive MetricKind where
  | counter : MetricKind
  | gauge : MetricKind
  deriving DecidableEq, Repr

/-- A metric record added to the accumulator: measurement name, kind,
fields and tags (association lists in insertion order). -/
structure Metric where
  name : String
  kind : MetricKind
  fields : List (String × Int)
  tags : List (String × String)
  deriving DecidableEq, Repr

/-- The plugin configuration fields that affect collection behaviour. -/
structure Config where
  repos : List String
  accessToken : String
  deriving DecidableEq, Repr

/-- Go `strings.Split` with a one-character separator, over the
character list: splits around every occurrence of `sep`, keeping empty
segments; splitting the empty list yields one empty segment, matching
`strings.Split("", sep) == []string{""}`. -/
def goSplitChars (sep : Char) : List Char → List (List Char)
  | [] => [[]]
  | c :: cs =>
    if c = sep then [] :: goSplitChars sep cs
    else
      match goSplitChars sep cs with
      | [] => [[c]]
      | p :: ps => (c :: p) :: ps

/-- Go `strings.Split(s, sep)` for a one-character separator. -/
def goSplit (s : String) (sep : Char) : List String :=
  (goSplitChars sep s.toList).map (fun cs => String.mk cs)

/-- `splitRepoId`: splits the identifier on `/` via `strings.Split` and
requires exactly two parts (`len(repoParts) != 2` fails); the parts are
returned as `(owner, name)` with no further validation. -/
def splitRepoId (repo : String) : Except GHError (String × String) :=
  match goSplit repo '/' with
  | [repoOwner, repoName] => Except.ok (repoOwner, repoName)
  | _ => Except.error (GHError.invalidRepoId repo)

/-- The nested loop of `processRepo` summing `GetDownloadCount` over
every asset of every release into `totalDownloadCount`. -/
def totalDownloadCount (repoReleases : List Release) : Int :=
  repoReleases.foldl
    (fun acc repoRelease =>
      repoRelease.assets.foldl
        (fun acc2 repoReleaseAsset => acc2 + repoReleaseAsset.downloadCount) acc)
    0

/-- The traffic-view scan of `processRepo`: starting from the zero
timestamp `time.Time{}` and zero counts, each sample replaces the
current selection exactly when its timestamp is strictly later
(`Timestamp.After(viewTimestamp)`). Returns
`(viewTimestamp, totalViews, uniqueViews)`. -/
def selectLatestView (views : List TrafficView) : Nat × Int × Int :=
  views.foldl
    (fun acc v =>
      if acc.1 < v.timestamp then (v.timestamp, v.count, v.uniques) else acc)
    (0, 0, 0)

/-- The traffic-view block of `processRepo`: only entered when
`plugin.AccessToken != ""`; otherwise `viewTimestamp`, `totalViews` and
`uniqueViews` keep their zero values and no request is issued. -/
def trafficStep (cfg : Config) (client : Client)
    (repoOwner repoName : String) :
    Except GHError (Nat × Int × Int) × List Request :=
  if cfg.accessToken ≠ "" then
    match client.listTrafficViews repoOwner repoName with
    | Except.error e =>
      (Except.error e, [Request.listTrafficViews repoOwner repoName])
    | Except.ok repoTrafficViews =>
      (Except.ok (selectLatestView repoTrafficViews.views),
       [Request.listTrafficViews repoOwner repoName])
  else
    (Except.ok (0, 0, 0), [])

/-- `processRepo`: parse the identifier, fetch metadata, releases and
(only with a non-empty access token) traffic views, then add one counter
metric. Returns the result (`Except` mirrors the early returns) together
with the trace of client requests issued. -/
def processRepo (cfg : Config) (client : Client) (repo : String) :
    Except GHError Metric × List Request :=
  match splitRepoId repo with
  | Except.error e => (Except.error e, [])
  | Except.ok (repoOwner, repoName) =>
    match client.getRepo repoOwner repoName with
    | Except.error e => (Except.error e, [Request.getRepo repoOwner repoName])
    | Except.ok repoInfo =>
      match client.listReleases repoOwner repoName with
      | Except.error e =>
        (Except.error e,
         [Request.getRepo repoOwner repoName,
          Request.listReleases repoOwner repoName])
      | Except.ok repoReleases =>
        match trafficStep cfg client repoOwner repoName with
        | (Except.error e, reqs2) =>
          (Except.error e,
           [Request.getRepo repoOwner repoName,
            Request.listReleases repoOwner repoName] ++ reqs2)
        | (Except.ok sel, reqs2) =>
          (Except.ok
            (Metric.mk "github_info" MetricKind.counter
              [("forks_count", repoInfo.forksCount),
               ("stargazers_count", repoInfo.stargazersCount),
               ("subscribers_count", repoInfo.subscribersCount),
               ("total_download_count", totalDownloadCount repoReleases),
               ("total_views", sel.2.1),
               ("unique_views", sel.2.2)]
              [("github_repo", repo)]),
           [Request.getRepo repoOwner repoName,
            Request.listReleases repoOwner repoName] ++ reqs2)

/-- State threaded by `Gather` over the repository loop: metrics added
to the accumulator, errors added via `AddError` (nil errors are
ignored), and the trace of client requests. -/
structure GatherAcc where
  metrics : List Metric
  errors : List GHError
  requests : List Request
  deriving DecidableEq, Repr

/-- One iteration of the `Gather` loop:
`a.AddError(plugin.processRepo(ctx, client, a, repo))`. -/
def gatherStep (cfg : Config) (client : Client) (acc : GatherAcc)
    (repo : String) : GatherAcc :=
  match processRepo cfg client repo with
  | (Except.ok m, reqs) =>
    { metrics := acc.metrics ++ [m], errors := acc.errors,
      requests := acc.requests ++ reqs }
  | (Except.error e, reqs) =>
    { metrics := acc.metrics, errors := acc.errors ++ [e],
      requests := acc.requests ++ reqs }

/-- `Gather`: fails fast on an empty repository list, then obtains the
client (`getClient` is modelled by its result, passed as an oracle) and
loops over the configured repositories. Returns the cycle result and
the accumulator contents. -/
def Gather (cfg : Config) (getClientResult : Except GHError Client) :
    Except GHError Unit × GatherAcc :=
  if cfg.repos = [] then
    (Except.error GHError.emptyRepoList,
     { metrics := [], errors := [], requests := [] })
  else
    match getClientResult with
    | Except.error e =>
      (Except.error e, { metrics := [], errors := [], requests := [] })
    | Except.ok client =>
      (Except.ok (),
       cfg.repos.foldl (gatherStep cfg client)
         { metrics := [], errors := [], requests := [] })

/-! ### Concrete data from the repository's test server
(`github_test.go`): repository info `{stargazers_count:1,
forks_count:2, subscribers_count:3}`, the releases fixture and the
traffic-views fixture (timestamps written as `yyyymmdd` numbers,
preserving their order). -/

/-- The releases fixture of `github_test.go`: per-asset download counts
`[[1,1,1,2,1,2],[2,4,2,3,3,4],[]]`. -/
def exampleReleases : List Release :=
  [Release.mk [ReleaseAsset.mk 1, ReleaseAsset.mk 1, ReleaseAsset.mk 1,
               ReleaseAsset.mk 2, ReleaseAsset.mk 1, ReleaseAsset.mk 2],
   Release.mk [ReleaseAsset.mk 2, ReleaseAsset.mk 4, ReleaseAsset.mk 2,
               ReleaseAsset.mk 3, ReleaseAsset.mk 3, ReleaseAsset.mk 4],
   Release.mk []]

/-- The traffic-views fixture of `github_test.go`: samples dated
2022-10-10 .. 2022-10-24 in file order. -/
def exampleViews : List TrafficView :=
  [TrafficView.mk 20221010 440 143, TrafficView.mk 20221011 1308 414,
   TrafficView.mk 20221012 1486 452, TrafficView.mk 20221013 1170 401,
   TrafficView.mk 20221014 868 266, TrafficView.mk 20221015 495 157,
   TrafficView.mk 20221016 524 175, TrafficView.mk 20221017 1263 412,
   TrafficView.mk 20221018 1402 417, TrafficView.mk 20221019 1394 424,
   TrafficView.mk 20221020 1492 448, TrafficView.mk 20221021 1153 332,
   TrafficView.mk 20221022 566 168, TrafficView.mk 20221023 675 184,
   TrafficView.mk 20221024 614 237]

/-- A client answering every request with the test-server fixtures. -/
def okClient : Client :=
  Client.mk (fun _ _ => Except.ok (RepoInfo.mk 2 1 3))
    (fun _ _ => Except.ok exampleReleases)
    (fun _ _ => Except.ok (TrafficViews.mk exampleViews))

/-- A client failing every request with the same transport error. -/
def failAllClient : Client :=
  Client.mk (fun _ _ => Except.error (GHError.clientError "down"))
    (fun _ _ => Except.error (GHError.clientError "down"))
    (fun _ _ => Except.error (GHError.clientError "down"))

/-! ### Helper lemmas about the traffic-view scan -/

/-- The loop body of the traffic-view scan, named for the lemmas. -/
def viewStep (acc : Nat × Int × Int) (v : TrafficView) : Nat × Int × Int :=
  if acc.1 < v.timestamp then (v.timestamp, v.count, v.uniques) else acc

theorem selectLatestView_eq_foldl (views : List TrafficView) :
    selectLatestView views = views.foldl viewStep (0, 0, 0) := rfl

theorem foldl_viewStep_of_no_later (l : List TrafficView) :
    ∀ acc : Nat × Int × Int, (∀ w ∈ l, w.timestamp ≤ acc.1) →
      l.foldl viewStep acc = acc := by
  induction l with
  | nil => intro acc _; rfl
  | cons w l ih =>
    intro acc h
    have hw : ¬ acc.1 < w.timestamp :=
      not_lt.mpr (h w (List.mem_cons_self w l))
    have hstep : viewStep acc w = acc := by simp [viewStep, hw]
    rw [List.foldl_cons, hstep]
    exact ih acc (fun w' hw' => h w' (List.mem_cons_of_mem _ hw'))

theorem foldl_viewStep_lt (l : List TrafficView) :
    ∀ (acc : Nat × Int × Int) (T : Nat), acc.1 < T →
      (∀ w ∈ l, w.timestamp < T) → (l.foldl viewStep acc).1 < T := by
  induction l with
  | nil => intro acc T hacc _; exact hacc
  | cons w l ih =>
    intro acc T hacc h
    rw [List.foldl_cons]
    refine ih _ T ?_ (fun w' hw' => h w' (List.mem_cons_of_mem _ hw'))
    by_cases hw : acc.1 < w.timestamp
    · simp [viewStep, hw]
      exact h w (List.mem_cons_self w l)
    · simp [viewStep, hw]
      exact hacc

theorem foldl_viewStep_unique (l : List TrafficView) :
    ∀ (acc : Nat × Int × Int) (v : TrafficView), v ∈ l →
      (∀ w ∈ l, w = v ∨ w.timestamp < v.timestamp) →
      acc.1 < v.timestamp →
      l.foldl viewStep acc = (v.timestamp, v.count, v.uniques) := by
  induction l with
  | nil => intro _ _ hv; exact absurd hv (List.not_mem_nil _)
  | cons w l ih =>
    intro acc v hv hmax hacc
    rw [List.foldl_cons]
    by_cases hw : w = v
    · subst hw
      have hstep : viewStep acc w = (w.timestamp, w.count, w.uniques) := by
        simp [viewStep, hacc]
      rw [hstep]
      refine foldl_viewStep_of_no_later l _ ?_
      intro w' hw'
      rcases hmax w' (List.mem_cons_of_mem _ hw') with h | h
      · exact le_of_eq (by rw [h])
      · exact le_of_lt h
    · have hwlt : w.timestamp < v.timestamp := by
        rcases hmax w (List.mem_cons_self w l) with h | h
        · exact absurd h hw
        · exact h
      have hvmem : v ∈ l := by
        rcases List.mem_cons.mp hv with h | h
        · exact absurd h.symm hw
        · exact h
      refine ih _ v hvmem
        (fun w' hw' => hmax w' (List.mem_cons_of_mem _ hw')) ?_
      by_cases hstep : acc.1 < w.timestamp
      · simp [viewStep, hstep]; exact hwlt
      · simp [viewStep, hstep]; exact hacc

theorem selectLatestView_append (l₁ l₂ : List TrafficView)
    (v : TrafficView) (h₁ : ∀ w ∈ l₁, w.timestamp < v.timestamp)
    (h₂ : ∀ w ∈ l₂, w.timestamp ≤ v.timestamp)
    (hpos : 0 < v.timestamp) :
    selectLatestView (l₁ ++ v :: l₂) =
      (v.timestamp, v.count, v.uniques) := by
  rw [selectLatestView_eq_foldl, List.foldl_append, List.foldl_cons]
  have hlt : (l₁.foldl viewStep (0, 0, 0)).1 < v.timestamp :=
    foldl_viewStep_lt l₁ (0, 0, 0) v.timestamp hpos h₁
  have hstep : viewStep (l₁.foldl viewStep (0, 0, 0)) v =
      (v.timestamp, v.count, v.uniques) := if_pos hlt
  rw [hstep]
  exact foldl_viewStep_of_no_later l₂ _ (fun w hw => h₂ w hw)

/-! ### Helper lemmas about the download-count aggregation -/

theorem foldl_downloads_eq (assets : List ReleaseAsset) :
    ∀ acc : Int,
      assets.foldl (fun acc2 a => acc2 + a.downloadCount) acc =
        acc + (assets.map ReleaseAsset.downloadCount).sum := by
  induction assets with
  | nil => intro acc; simp
  | cons a assets ih =>
    intro acc
    rw [List.foldl_cons, ih]
    simp [add_assoc]

theorem totalDownloadCount_foldl (repoReleases : List Release) :
    ∀ acc : Int,
      repoReleases.foldl
        (fun acc r =>
          r.assets.foldl (fun acc2 a => acc2 + a.downloadCount) acc) acc =
        acc + (repoReleases.map
          (fun r => (r.assets.map ReleaseAsset.downloadCount).sum)).sum := by
  induction repoReleases with
  | nil => intro acc; simp
  | cons r repoReleases ih =>
    intro acc
    rw [List.foldl_cons, ih, foldl_downloads_eq]
    simp [add_assoc]

/-! ### Characterisation of `processRepo` by stages -/

theorem trafficStep_no_token (cfg : Config) (client : Client)
    (repoOwner repoName : String) (h : cfg.accessToken = "") :
    trafficStep cfg client repoOwner repoName =
      (Except.ok (0, 0, 0), []) := by
  simp [trafficStep, h]

theorem trafficStep_token_err (cfg : Config) (client : Client)
    (repoOwner repoName : String) (h : cfg.accessToken ≠ "")
    (e : GHError)
    (ht : client.listTrafficViews repoOwner repoName = Except.error e) :
    trafficStep cfg client repoOwner repoName =
      (Except.error e, [Request.listTrafficViews repoOwner repoName]) := by
  simp [trafficStep, h, ht]

theorem trafficStep_token_ok (cfg : Config) (client : Client)
    (repoOwner repoName : String) (h : cfg.accessToken ≠ "")
    (tv : TrafficViews)
    (ht : client.listTrafficViews repoOwner repoName = Except.ok tv) :
    trafficStep cfg client repoOwner repoName =
      (Except.ok (selectLatestView tv.views),
       [Request.listTrafficViews repoOwner repoName]) := by
  simp [trafficStep, h, ht]

theorem processRepo_split_err (cfg : Config) (client : Client)
    (repo : String) (e : GHError)
    (hs : splitRepoId repo = Except.error e) :
    processRepo cfg client repo = (Except.error e, []) := by
  simp [processRepo, hs]

theorem processRepo_getRepo_err (cfg : Config) (client : Client)
    (repo repoOwner repoName : String) (e : GHError)
    (hs : splitRepoId repo = Except.ok (repoOwner, repoName))
    (hi : client.getRepo repoOwner repoName = Except.error e) :
    processRepo cfg client repo =
      (Except.error e, [Request.getRepo repoOwner repoName]) := by
  simp [processRepo, hs, hi]

theorem processRepo_releases_err (cfg : Config) (client : Client)
    (repo repoOwner repoName : String) (repoInfo : RepoInfo) (e : GHError)
    (hs : splitRepoId repo = Except.ok (repoOwner, repoName))
    (hi : client.getRepo repoOwner repoName = Except.ok repoInfo)
    (hr : client.listReleases repoOwner repoName = Except.error e) :
    processRepo cfg client repo =
      (Except.error e,
       [Request.getRepo repoOwner repoName,
        Request.listReleases repoOwner repoName]) := by
  simp [processRepo, hs, hi, hr]

theorem processRepo_traffic_err (cfg : Config) (client : Client)
    (repo repoOwner repoName : String) (repoInfo : RepoInfo)
    (repoReleases : List Release) (e : GHError) (reqs2 : List Request)
    (hs : splitRepoId repo = Except.ok (repoOwner, repoName))
    (hi : client.getRepo repoOwner repoName = Except.ok repoInfo)
    (hr : client.listReleases repoOwner repoName = Except.ok repoReleases)
    (ht : trafficStep cfg client repoOwner repoName =
            (Except.error e, reqs2)) :
    processRepo cfg client repo =
      (Except.error e,
       [Request.getRepo repoOwner repoName,
        Request.listReleases repoOwner repoName] ++ reqs2) := by
  simp [processRepo, hs, hi, hr, ht]

theorem processRepo_ok_eq (cfg : Config) (client : Client)
    (repo repoOwner repoName : String) (repoInfo : RepoInfo)
    (repoReleases : List Release) (sel : Nat × Int × Int)
    (reqs2 : List Request)
    (hs : splitRepoId repo = Except.ok (repoOwner, repoName))
    (hi : client.getRepo repoOwner repoName = Except.ok repoInfo)
    (hr : client.listReleases repoOwner repoName = Except.ok repoReleases)
    (ht : trafficStep cfg client repoOwner repoName =
            (Except.ok sel, reqs2)) :
    processRepo cfg client repo =
      (Except.ok
        (Metric.mk "github_info" MetricKind.counter
          [("forks_count", repoInfo.forksCount),
           ("stargazers_count", repoInfo.stargazersCount),
           ("subscribers_count", repoInfo.subscribersCount),
           ("total_download_count", totalDownloadCount repoReleases),
           ("total_views", sel.2.1),
           ("unique_views", sel.2.2)]
          [("github_repo", repo)]),
       [Request.getRepo repoOwner repoName,
        Request.listReleases repoOwner repoName] ++ reqs2) := by
  simp [processRepo, hs, hi, hr, ht]

/-- Inversion: a successful `processRepo` run went through all stages in
order. -/
theorem processRepo_ok_inv (cfg : Config) (client : Client)
    (repo : String) (m : Metric) (reqs : List Request)
    (h : processRepo cfg client repo = (Except.ok m, reqs)) :
    ∃ repoOwner repoName repoInfo repoReleases sel reqs2,
      splitRepoId repo = Except.ok (repoOwner, repoName) ∧
      client.getRepo repoOwner repoName = Except.ok repoInfo ∧
      client.listReleases repoOwner repoName = Except.ok repoReleases ∧
      trafficStep cfg client repoOwner repoName =
        (Except.ok sel, reqs2) ∧
      m = Metric.mk "github_info" MetricKind.counter
          [("forks_count", repoInfo.forksCount),
           ("stargazers_count", repoInfo.stargazersCount),
           ("subscribers_count", repoInfo.subscribersCount),
           ("total_download_count", totalDownloadCount repoReleases),
           ("total_views", sel.2.1),
           ("unique_views", sel.2.2)]
          [("github_repo", repo)] ∧
      reqs = [Request.getRepo repoOwner repoName,
              Request.listReleases repoOwner repoName] ++ reqs2 := by
  rcases hsp : splitRepoId repo with e | ⟨repoOwner, repoName⟩
  · rw [processRepo_split_err cfg client repo e hsp] at h
    exact absurd (congrArg Prod.fst h) (by simp)
  · rcases hi : client.getRepo repoOwner repoName with e | repoInfo
    · rw [processRepo_getRepo_err cfg client repo repoOwner repoName e
        hsp hi] at h
      exact absurd (congrArg Prod.fst h) (by simp)
    · rcases hr : client.listReleases repoOwner repoName with e | rels
      · rw [processRepo_releases_err cfg client repo repoOwner repoName
          repoInfo e hsp hi hr] at h
        exact absurd (congrArg Prod.fst h) (by simp)
      · rcases htr : trafficStep cfg client repoOwner repoName with
          ⟨res2, reqs2⟩
        rcases res2 with e | sel
        · rw [processRepo_traffic_err cfg client repo repoOwner repoName
            repoInfo rels e reqs2 hsp hi hr htr] at h
          exact absurd (congrArg Prod.fst h) (by simp)
        · rw [processRepo_ok_eq cfg client repo repoOwner repoName
            repoInfo rels sel reqs2 hsp hi hr htr] at h
          refine ⟨repoOwner, repoName, repoInfo, rels, sel, reqs2,
            rfl, hi, hr, htr, ?_, ?_⟩
          · exact (Except.ok.inj (congrArg Prod.fst h)).symm
          · exact (congrArg Prod.snd h).symm

/-! ### Characterisation of the `Gather` loop -/

/-- The metric a repository contributes to the accumulator, if its
collection succeeds. -/
def repoMetricOf (cfg : Config) (client : Client) (repo : String) :
    Option Metric :=
  match (processRepo cfg client repo).1 with
  | Except.ok m => some m
  | Except.error _ => none

/-- The error a repository contributes via `AddError`, if its collection
fails. -/
def repoErrorOf (cfg : Config) (client : Client) (repo : String) :
    Option GHError :=
  match (processRepo cfg client repo).1 with
  | Except.ok _ => none
  | Except.error e => some e

theorem gather_foldl_eq (cfg : Config) (client : Client)
    (repos : List String) :
    ∀ acc : GatherAcc,
      repos.foldl (gatherStep cfg client) acc =
        GatherAcc.mk
          (acc.metrics ++ repos.filterMap (repoMetricOf cfg client))
          (acc.errors ++ repos.filterMap (repoErrorOf cfg client))
          (acc.requests ++
            repos.flatMap (fun repo => (processRepo cfg client repo).2)) := by
  induction repos with
  | nil => intro acc; simp
  | cons repo repos ih =>
    intro acc
    rw [List.foldl_cons, ih]
    rcases hp : processRepo cfg client repo with ⟨res, reqs⟩
    rcases res with e | m
    · have hm : repoMetricOf cfg client repo = none := by
        simp [repoMetricOf, hp]
      have he : repoErrorOf cfg client repo = some e := by
        simp [repoErrorOf, hp]
      simp [gatherStep, hp, hm, he, List.filterMap_cons, List.flatMap_cons]
    · have hm : repoMetricOf cfg client repo = some m := by
        simp [repoMetricOf, hp]
      have he : repoErrorOf cfg client repo = none := by
        simp [repoErrorOf, hp]
      simp [gatherStep, hp, hm, he, List.filterMap_cons, List.flatMap_cons]

theorem Gather_nonempty_eq (cfg : Config) (client : Client)
    (hne : cfg.repos ≠ []) :
    Gather cfg (Except.ok client) =
      (Except.ok (),
       GatherAcc.mk
         (cfg.repos.filterMap (repoMetricOf cfg client))
         (cfg.repos.filterMap (repoErrorOf cfg client))
         (cfg.repos.flatMap
           (fun repo => (processRepo cfg client repo).2))) := by
  rw [Gather, if_neg hne]
  rw [gather_foldl_eq cfg client cfg.repos]
  simp

/-! ### Shared concrete records for witnesses and counterexamples -/

/-- The metric emitted for `"o/n"` against `okClient` with an access
token configured. -/
def tokenMetric : Metric :=
  Metric.mk "github_info" MetricKind.counter
    [("forks_count", 2), ("stargazers_count", 1), ("subscribers_count", 3),
     ("total_download_count", 26), ("total_views", 614),
     ("unique_views", 237)]
    [("github_repo", "o/n")]

/-- The metric emitted for `"o/n"` against `okClient` with an empty
access token. -/
def noTokenMetric : Metric :=
  Metric.mk "github_info" MetricKind.counter
    [("forks_count", 2), ("stargazers_count", 1), ("subscribers_count", 3),
     ("total_download_count", 26), ("total_views", 0), ("unique_views", 0)]
    [("github_repo", "o/n")]

/-- A configuration with one malformed and one well-formed identifier. -/
def mixedCfg : Config := Config.mk ["bad_id", "o/n"] ""

/-! ### The claims -/

/-- Claim C2, counterexample: `splitRepoId` only checks for exactly two
parts, so identifiers with empty segments parse successfully — `"/"`
yields `("", "")` and `"owner/"` yields `("owner", "")` — refuting that
parsing fails whenever a segment is empty. -/
theorem claim2_cex :
    splitRepoId "/" = Except.ok ("", "") ∧
    splitRepoId "owner/" = Except.ok ("owner", "") := ⟨rfl, rfl⟩

/-- Claim C2 (amended): identifier parsing succeeds exactly when the
string splits on `/` into exactly two segments — the segments may be
empty — returning them as `(owner, name)`; for any string that does not
split into exactly two segments, parsing fails with the
invalid-identifier error. -/
theorem claim2_thm (repo : String) :
    (∀ repoOwner repoName, goSplit repo '/' = [repoOwner, repoName] →
      splitRepoId repo = Except.ok (repoOwner, repoName)) ∧
    ((goSplit repo '/').length ≠ 2 →
      splitRepoId repo = Except.error (GHError.invalidRepoId repo)) := by
  constructor
  · intro repoOwner repoName h
    simp [splitRepoId, h]
  · intro h
    rcases hs : goSplit repo '/' with _ | ⟨a, l⟩
    · simp [splitRepoId, hs]
    · rcases l with _ | ⟨b, l2⟩
      · simp [splitRepoId, hs]
      · rcases l2 with _ | ⟨c, l3⟩
        · rw [hs] at h; simp at h
        · simp [splitRepoId, hs]

/-- Claim C2, witness: a well-formed identifier parses into its parts
and a three-segment identifier is rejected. -/
theorem claim2_wit :
    goSplit "owner/name" '/' = ["owner", "name"] ∧
    splitRepoId "owner/name" = Except.ok ("owner", "name") ∧
    (goSplit "a/b/c" '/').length ≠ 2 ∧
    splitRepoId "a/b/c" = Except.error (GHError.invalidRepoId "a/b/c") :=
  ⟨rfl, (claim2_thm "owner/name").1 "owner" "name" rfl, by decide,
   (claim2_thm "a/b/c").2 (by decide)⟩

/-- Claim C4, counterexample: on the spec's own release fixture
`[[1,1,1,2,1,2],[2,4,2,3,3,4],[]]` the code computes
`8 + 18 + 0 = 26`, not the claimed `24` (the first release sums to 8,
not 6). -/
theorem claim4_cex :
    totalDownloadCount exampleReleases = 26 ∧
    totalDownloadCount exampleReleases ≠ 24 := ⟨by decide, by decide⟩

/-- Claim C4 (amended): the emitted `total_download_count` is the sum of
every asset's download count across every release (releases with no
assets contributing zero); in particular for the fixture
`[[1,1,1,2,1,2],[2,4,2,3,3,4],[]]` it equals 26. -/
theorem claim4_thm :
    (∀ repoReleases : List Release,
      totalDownloadCount repoReleases =
        (repoReleases.map
          (fun r => (r.assets.map ReleaseAsset.downloadCount).sum)).sum) ∧
    totalDownloadCount exampleReleases = 26 ∧
    totalDownloadCount [Release.mk []] = 0 := by
  refine ⟨?_, by decide, by decide⟩
  intro repoReleases
  rw [totalDownloadCount, totalDownloadCount_foldl repoReleases 0]
  simp

/-- Claim C3 (confirmed): for any list of traffic-view samples with
positive timestamps, if a sample strictly dominates every other sample's
timestamp then its count and uniques are selected, independently of
list order; the empty list selects the zero values. The test fixture
(2022-10-10 .. 2022-10-24) selects the 2022-10-24 sample
(count 614, uniques 237) in file order and in reversed order. -/
theorem claim3_thm :
    (∀ (views : List TrafficView) (v : TrafficView), v ∈ views →
      (∀ w ∈ views, w = v ∨ w.timestamp < v.timestamp) →
      0 < v.timestamp →
      selectLatestView views = (v.timestamp, v.count, v.uniques)) ∧
    selectLatestView [] = (0, 0, 0) ∧
    selectLatestView exampleViews = (20221024, 614, 237) ∧
    selectLatestView exampleViews.reverse = (20221024, 614, 237) := by
  refine ⟨?_, rfl, by decide, by decide⟩
  intro views v hv hmax hpos
  rw [selectLatestView_eq_foldl]
  exact foldl_viewStep_unique views (0, 0, 0) v hv hmax hpos

/-- Claim C3, witness: on a concrete unordered list the sample with the
maximal timestamp is selected. -/
theorem claim3_wit :
    TrafficView.mk 3 7 2 ∈
      [TrafficView.mk 1 10 5, TrafficView.mk 3 7 2, TrafficView.mk 2 4 1] ∧
    selectLatestView
      [TrafficView.mk 1 10 5, TrafficView.mk 3 7 2, TrafficView.mk 2 4 1] =
      (3, 7, 2) :=
  ⟨by decide,
   claim3_thm.1 _ (TrafficView.mk 3 7 2) (by decide) (by decide) (by decide)⟩

/-- Claim C9 (confirmed): when several samples share the maximal
timestamp, the earliest one in the list wins, because a candidate
replaces the current selection only when its timestamp is strictly
later: if everything before `v` is strictly earlier and everything
after `v` is no later, `v` is selected. -/
theorem claim9_thm (l₁ l₂ : List TrafficView) (v : TrafficView)
    (h₁ : ∀ w ∈ l₁, w.timestamp < v.timestamp)
    (h₂ : ∀ w ∈ l₂, w.timestamp ≤ v.timestamp)
    (hpos : 0 < v.timestamp) :
    selectLatestView (l₁ ++ v :: l₂) =
      (v.timestamp, v.count, v.uniques) :=
  selectLatestView_append l₁ l₂ v h₁ h₂ hpos

/-- Claim C9, witness: with two samples tied at timestamp 7, the earlier
one (count 2, uniques 2) is selected over the later tie (count 3). -/
theorem claim9_wit :
    selectLatestView
      [TrafficView.mk 5 1 1, TrafficView.mk 7 2 2, TrafficView.mk 7 3 3] =
      (7, 2, 2) :=
  claim9_thm [TrafficView.mk 5 1 1] [TrafficView.mk 7 3 3]
    (TrafficView.mk 7 2 2) (by decide) (by decide) (by decide)

/-- Claim C1, counterexample: the emitted record is named
`"github_info"` with tag key `"github_repo"`, not `"repository_info"`
with tag key `"repository"` as claimed. -/
theorem claim1_cex :
    (processRepo (Config.mk ["o/n"] "t") okClient "o/n").1 =
      Except.ok tokenMetric ∧
    tokenMetric.name = "github_info" ∧
    tokenMetric.name ≠ "repository_info" ∧
    tokenMetric.tags = [("github_repo", "o/n")] ∧
    "github_repo" ≠ "repository" :=
  ⟨rfl, rfl, by decide, rfl, by decide⟩

/-- Claim C1 (amended): for every repository whose collection succeeds,
exactly one counter-type metric record named `"github_info"` is
emitted, carrying the single tag `github_repo` set to the identifier
and exactly the six numeric fields `forks_count`, `stargazers_count`,
`subscribers_count`, `total_download_count`, `total_views`,
`unique_views`, where the first three equal the values returned by the
repository-metadata fetch. -/
theorem claim1_thm (cfg : Config) (client : Client)
    (repo repoOwner repoName : String) (repoInfo : RepoInfo)
    (m : Metric) (reqs : List Request)
    (hs : splitRepoId repo = Except.ok (repoOwner, repoName))
    (hi : client.getRepo repoOwner repoName = Except.ok repoInfo)
    (h : processRepo cfg client repo = (Except.ok m, reqs)) :
    m.kind = MetricKind.counter ∧ m.name = "github_info" ∧
    m.tags = [("github_repo", repo)] ∧
    ∃ dl tv uv, m.fields =
      [("forks_count", repoInfo.forksCount),
       ("stargazers_count", repoInfo.stargazersCount),
       ("subscribers_count", repoInfo.subscribersCount),
       ("total_download_count", dl),
       ("total_views", tv), ("unique_views", uv)] := by
  obtain ⟨o, n, info, rels, sel, reqs2, hs2, hi2, hr2, ht2, hm, hreqs⟩ :=
    processRepo_ok_inv cfg client repo m reqs h
  have hpair := Except.ok.inj (hs.symm.trans hs2)
  have ho : repoOwner = o := congrArg Prod.fst hpair
  have hn : repoName = n := congrArg Prod.snd hpair
  subst ho; subst hn
  have hinfo : repoInfo = info := Except.ok.inj (hi.symm.trans hi2)
  subst hinfo
  subst hm
  exact ⟨rfl, rfl, rfl, totalDownloadCount rels, sel.2.1, sel.2.2, rfl⟩

/-- Claim C1, witness: the record emitted for `"o/n"` against the
test-fixture client carries the six fields, with the metadata counters
(forks 2, stargazers 1, subscribers 3) copied through. -/
theorem claim1_wit :
    tokenMetric.kind = MetricKind.counter ∧
    tokenMetric.name = "github_info" ∧
    tokenMetric.tags = [("github_repo", "o/n")] ∧
    ∃ dl tv uv, tokenMetric.fields =
      [("forks_count", 2), ("stargazers_count", 1),
       ("subscribers_count", 3), ("total_download_count", dl),
       ("total_views", tv), ("unique_views", uv)] :=
  claim1_thm (Config.mk ["o/n"] "t") okClient "o/n" "o" "n"
    (RepoInfo.mk 2 1 3) tokenMetric
    [Request.getRepo "o" "n", Request.listReleases "o" "n",
     Request.listTrafficViews "o" "n"] rfl rfl rfl

/-- Claim C5 (confirmed): with an empty access token, no traffic-views
request is ever issued for any repository, and any emitted record has
`total_views` and `unique_views` equal to 0. -/
theorem claim5_thm (cfg : Config) (client : Client) (repo : String)
    (h : cfg.accessToken = "") :
    (∀ repoOwner repoName,
      Request.listTrafficViews repoOwner repoName ∉
        (processRepo cfg client repo).2) ∧
    (∀ m reqs, processRepo cfg client repo = (Except.ok m, reqs) →
      ∃ f s sub dl, m.fields =
        [("forks_count", f), ("stargazers_count", s),
         ("subscribers_count", sub), ("total_download_count", dl),
         ("total_views", 0), ("unique_views", 0)]) := by
  constructor
  · intro repoOwner repoName
    rcases hsp : splitRepoId repo with e | ⟨ro, rn⟩
    · rw [processRepo_split_err cfg client repo e hsp]
      simp
    · rcases hi : client.getRepo ro rn with e | info
      · rw [processRepo_getRepo_err cfg client repo ro rn e hsp hi]
        simp
      · rcases hr : client.listReleases ro rn with e | rels
        · rw [processRepo_releases_err cfg client repo ro rn info e
            hsp hi hr]
          simp
        · rw [processRepo_ok_eq cfg client repo ro rn info rels (0, 0, 0)
            [] hsp hi hr (trafficStep_no_token cfg client ro rn h)]
          simp
  · intro m reqs hpr
    obtain ⟨o, n, info, rels, sel, reqs2, hs2, hi2, hr2, ht2, hm, _⟩ :=
      processRepo_ok_inv cfg client repo m reqs hpr
    rw [trafficStep_no_token cfg client o n h] at ht2
    have hsel : ((0 : Nat), (0 : Int), (0 : Int)) = sel :=
      Except.ok.inj (congrArg Prod.fst ht2)
    subst hsel
    subst hm
    exact ⟨info.forksCount, info.stargazersCount, info.subscribersCount,
      totalDownloadCount rels, rfl⟩

/-- Claim C5, witness: for `"o/n"` with an empty token the trace holds
only the metadata and releases requests and the record ends in zero
view fields. -/
theorem claim5_wit :
    (processRepo (Config.mk ["o/n"] "") okClient "o/n").2 =
      [Request.getRepo "o" "n", Request.listReleases "o" "n"] ∧
    Request.listTrafficViews "o" "n" ∉
      (processRepo (Config.mk ["o/n"] "") okClient "o/n").2 ∧
    ∃ f s sub dl, noTokenMetric.fields =
      [("forks_count", f), ("stargazers_count", s),
       ("subscribers_count", sub), ("total_download_count", dl),
       ("total_views", 0), ("unique_views", 0)] :=
  ⟨rfl,
   (claim5_thm (Config.mk ["o/n"] "") okClient "o/n" rfl).1 "o" "n",
   (claim5_thm (Config.mk ["o/n"] "") okClient "o/n" rfl).2 noTokenMetric
     [Request.getRepo "o" "n", Request.listReleases "o" "n"] rfl⟩

/-- Claim C7 (confirmed): collection of a repository aborts at the
failing step — the result is that step's error, no metric is produced,
and the request trace stops at the failing fetch, so no later fetch is
attempted. -/
theorem claim7_thm (cfg : Config) (client : Client) (repo : String) :
    (∀ e, splitRepoId repo = Except.error e →
      processRepo cfg client repo = (Except.error e, [])) ∧
    (∀ repoOwner repoName e,
      splitRepoId repo = Except.ok (repoOwner, repoName) →
      client.getRepo repoOwner repoName = Except.error e →
      processRepo cfg client repo =
        (Except.error e, [Request.getRepo repoOwner repoName])) ∧
    (∀ repoOwner repoName repoInfo e,
      splitRepoId repo = Except.ok (repoOwner, repoName) →
      client.getRepo repoOwner repoName = Except.ok repoInfo →
      client.listReleases repoOwner repoName = Except.error e →
      processRepo cfg client repo =
        (Except.error e,
         [Request.getRepo repoOwner repoName,
          Request.listReleases repoOwner repoName])) ∧
    (∀ repoOwner repoName repoInfo repoReleases e,
      splitRepoId repo = Except.ok (repoOwner, repoName) →
      client.getRepo repoOwner repoName = Except.ok repoInfo →
      client.listReleases repoOwner repoName = Except.ok repoReleases →
      cfg.accessToken ≠ "" →
      client.listTrafficViews repoOwner repoName = Except.error e →
      processRepo cfg client repo =
        (Except.error e,
         [Request.getRepo repoOwner repoName,
          Request.listReleases repoOwner repoName,
          Request.listTrafficViews repoOwner repoName])) :=
  ⟨fun e hs => processRepo_split_err cfg client repo e hs,
   fun repoOwner repoName e hs hi =>
     processRepo_getRepo_err cfg client repo repoOwner repoName e hs hi,
   fun repoOwner repoName repoInfo e hs hi hr =>
     processRepo_releases_err cfg client repo repoOwner repoName
       repoInfo e hs hi hr,
   fun repoOwner repoName repoInfo repoReleases e hs hi hr htok ht =>
     processRepo_traffic_err cfg client repo repoOwner repoName repoInfo
       repoReleases e [Request.listTrafficViews repoOwner repoName]
       hs hi hr (trafficStep_token_err cfg client repoOwner repoName
         htok e ht)⟩

/-- Claim C7, witness: a failing metadata fetch aborts immediately: the
error is returned and only the metadata request was issued. -/
theorem claim7_wit :
    processRepo (Config.mk ["o/n"] "t") failAllClient "o/n" =
      (Except.error (GHError.clientError "down"),
       [Request.getRepo "o" "n"]) :=
  (claim7_thm (Config.mk ["o/n"] "t") failAllClient "o/n").2.1 "o" "n"
    (GHError.clientError "down") rfl rfl

/-- Claim C6 (confirmed): with a non-empty repository list and a
working client, every configured repository is processed: the
accumulator receives exactly the metrics of the repositories whose own
collection succeeds and exactly the errors of those whose own
collection fails, each contribution depending only on that repository —
so one repository's failure cannot suppress another's record. -/
theorem claim6_thm (cfg : Config) (client : Client)
    (hne : cfg.repos ≠ []) :
    Gather cfg (Except.ok client) =
      (Except.ok (),
       GatherAcc.mk
         (cfg.repos.filterMap (repoMetricOf cfg client))
         (cfg.repos.filterMap (repoErrorOf cfg client))
         (cfg.repos.flatMap
           (fun repo => (processRepo cfg client repo).2))) :=
  Gather_nonempty_eq cfg client hne

/-- Claim C6, witness: with one malformed and one well-formed
identifier, the malformed one contributes only its error while the
well-formed one still emits its record. -/
theorem claim6_wit :
    Gather mixedCfg (Except.ok okClient) =
      (Except.ok (),
       GatherAcc.mk [noTokenMetric] [GHError.invalidRepoId "bad_id"]
         [Request.getRepo "o" "n", Request.listReleases "o" "n"]) :=
  (claim6_thm mixedCfg okClient (by decide)).trans rfl

/-- Claim C8 (confirmed): an empty configured repository list fails the
cycle immediately with the configuration error, independently of the
client construction outcome, with no metric, no accumulated error and
no request. -/
theorem claim8_thm (cfg : Config) (gcr : Except GHError Client)
    (h : cfg.repos = []) :
    Gather cfg gcr =
      (Except.error GHError.emptyRepoList, GatherAcc.mk [] [] []) := by
  rw [Gather.eq_def, if_pos h]

/-- Claim C8, witness: the empty configuration fails the same way even
when client construction would itself fail, showing the client is never
consulted. -/
theorem claim8_wit :
    Gather (Config.mk [] "t") (Except.error (GHError.clientError "unused")) =
      (Except.error GHError.emptyRepoList, GatherAcc.mk [] [] []) :=
  claim8_thm (Config.mk [] "t")
    (Except.error (GHError.clientError "unused")) rfl

/-- Claim C10 (confirmed): with a non-empty repository list and a
successfully constructed client, `Gather` itself returns success;
per-repository failures travel only through the accumulator's error
channel. -/
theorem claim10_thm (cfg : Config) (client : Client)
    (hne : cfg.repos ≠ []) :
    (Gather cfg (Except.ok client)).1 = Except.ok () := by
  simp [Gather, hne]

/-- Claim C10, witness: even when the single configured repository
fails (its identifier has no slash), the cycle still returns success
while the failure is recorded in the error channel. -/
theorem claim10_wit :
    (Config.mk ["only_repo"] "t").repos ≠ [] ∧
    (Gather (Config.mk ["only_repo"] "t")
      (Except.ok failAllClient)).1 = Except.ok () ∧
    (Gather (Config.mk ["only_repo"] "t")
      (Except.ok failAllClient)).2.errors =
      [GHError.invalidRepoId "only_repo"] :=
  ⟨by decide, claim10_thm (Config.mk ["only_repo"] "t") failAllClient
    (by decide), by decide⟩

end GitHubPlugin
